import Mathlib

/-!
# Verification of the CosyVoice TTS orchestration engine

Shallow embedding of `modules/core/models/tts/CosyVoiceModel.py`
(Speech-AI-Forge).  Pure data flow is modelled directly; external numeric
kernels (librosa decoding / trimming, torch tensor ops, the neural engine)
are modelled symbolically: each operation the orchestrator applies to an
audio buffer is a constructor of an inductive `Audio` type, so theorems
about *which* operations are applied (and in which order) are exact, while
the numeric content of the buffers stays opaque.  The neural engine itself
(`self.model.inference`) is an arbitrary fallible function parameter.
-/

namespace CosyVoice

/-! ## Module-level constants (source lines 28–29) -/

/-- `max_val = 0.8` (source line 28). -/
def max_val : ℚ := 8 / 10

/-- `prompt_sr = 16000` (source line 29). -/
def prompt_sr : ℕ := 16000

/-- `target_sr = 16000` (source line 29). -/
def target_sr : ℕ := 16000

/-! ## Symbolic audio buffers

Each constructor records one operation the orchestrator applies to an
audio buffer; the underlying sample data is opaque. -/

/-- Symbolic audio buffer: a trace of the operations applied to it. -/
inductive Audio where
  /-- `audio_utils.bytes_to_librosa_array(audio_bytes, sample_rate)` (source line 223). -/
  | decodeBytes (bytes : List ℕ) (sampleRate : ℕ)
  /-- `AudioReshaper.normalize_audio(audio, target_sr)` (source line 226): resample to `target_sr`. -/
  | resample (a : Audio) (targetSr : ℕ)
  /-- `librosa.effects.trim(speech, top_db, frame_length, hop_length)` (source line 33). -/
  | trim (a : Audio) (topDb frameLength hopLength : ℕ)
  /-- `speech / speech.abs().max() * max_val` (source line 37): peak-rescale. -/
  | rescaleTo (a : Audio) (maxVal : ℚ)
  /-- `torch.concat([speech, torch.zeros(1, n)], dim=1)` (source line 38): append `n` zero samples. -/
  | padRight (a : Audio) (numZeros : ℕ)
  /-- `torch.from_numpy(w).unsqueeze(0)` (source line 290); shape-only operation. -/
  | unsqueeze (a : Audio)
  deriving DecidableEq, Repr

/-- `postprocess(speech, top_db=60, hop_length=220, win_length=440)`
(source lines 32–39).  The test `speech.abs().max() > max_val` is a
comparison on opaque sample data, so its outcome is taken as the explicit
argument `peakExceedsMax`; both outcomes are covered by theorems. -/
def postprocess (speech : Audio) (top_db hop_length win_length : ℕ)
    (peakExceedsMax : Bool) : Audio :=
  let speech := Audio.trim speech top_db win_length hop_length
  let speech := if peakExceedsMax then Audio.rescaleTo speech max_val else speech
  Audio.padRight speech (target_sr * 2 / 10)

/-! ## Speaker data model (external collaborators, spec §3 and §6) -/

/-- Modelled from the spec: `ConditioningToken` is an ordered sequence of
embedding vectors, possibly empty (spec §3); vectors are opaque numeric data. -/
structure ConditioningToken where
  embedding : List (List ℚ)
  deriving DecidableEq, Repr

/-- Modelled from the spec: `ReferenceClip` holds waveform bytes, a sample
rate, a transcript and an emotion tag (spec §3); field names follow the
source's uses (`ref_data.wav`, `ref_data.wav_sr`, `ref_data.text`,
`x.emotion`). -/
structure ReferenceClip where
  wav : List ℕ
  wav_sr : ℕ
  text : String
  emotion : String
  deriving DecidableEq, Repr

/-- Modelled from the spec: the speaker profile exposes a gender string,
per-model conditioning tokens and reference clips (spec §3, §6). -/
structure TTSSpeaker where
  gender : String
  tokens : List (String × ConditioningToken)
  refs : List ReferenceClip
  deriving DecidableEq, Repr

/-- Modelled from the spec: `get_token(model_id) -> optional ConditioningToken`
(spec §6); first record for the given model id. -/
def TTSSpeaker.get_token (spk : TTSSpeaker) (modelId : String) :
    Option ConditioningToken :=
  (spk.tokens.find? (fun p => p.1 == modelId)).map Prod.snd

/-- Modelled from the spec: `get_ref(predicate) -> optional ReferenceClip`
(spec §6); first clip satisfying the predicate. -/
def TTSSpeaker.get_ref (spk : TTSSpeaker) (p : ReferenceClip → Bool) :
    Option ReferenceClip :=
  spk.refs.find? p

/-- `TTSSegment` (spec §3; source reads `text`, `spk`, `emotion`, `prompt2`,
`infer_seed`; it also reads `temperature`/`top_p`/`top_k` into locals that
are never used — source lines 255–258 — so those are omitted here). -/
structure TTSSegment where
  text : String
  spk : Option TTSSpeaker
  emotion : String
  prompt2 : String
  infer_seed : ℤ
  deriving DecidableEq, Repr

end CosyVoice

namespace CosyVoice

/-- Character-list version of `startsWith`, for the substring test below. -/
def charsStartWith : List Char → List Char → Bool
  | _, [] => true
  | [], _ :: _ => false
  | c :: cs, d :: ds => c == d && charsStartWith cs ds

/-- Does `pat` occur as a contiguous run inside the character list? -/
def charsContain (pat : List Char) : List Char → Bool
  | [] => pat.isEmpty
  | c :: cs => charsStartWith (c :: cs) pat || charsContain pat cs

/-- Python `sub in s` substring test (source line 266 uses `"女" in spk.gender`). -/
def str_contains (s sub : String) : Bool :=
  charsContain sub.data s.data

/-! ## Errors raised by the orchestrator

The source raises `ValueError` with distinct messages; the spec names them
MissingSpeakerError / ConditioningError / UnsupportedModeError.  Engine
failures (exceptions escaping `self.model.inference`) are carried by the
same error type so that they propagate through `Except`. -/

/-- Error taxonomy of the orchestrator (spec §7; source `raise ValueError(...)`). -/
inductive TTSError where
  /-- `segments[0]` on an empty list (source line 248). -/
  | indexError
  /-- `raise ValueError("spk is None")` (source line 253); spec: MissingSpeakerError. -/
  | spkIsNone
  /-- `raise ValueError("spk_embedding is None")` (source line 293); spec: ConditioningError. -/
  | spkEmbeddingIsNone
  /-- `"{} do not support cross_lingual inference"` (source lines 180–183); spec: UnsupportedModeError. -/
  | crossLingualUnsupported
  /-- `"{} do not support instruct inference"` (source lines 194–197); spec: UnsupportedModeError. -/
  | instructUnsupported
  /-- An error raised inside the external neural engine (`self.model.inference`). -/
  | engineFailure (tag : ℕ)
  deriving DecidableEq, Repr

/-- `self.frontend`: only its `instruct` capability flag and its object
identity matter to this development (source lines 94–104, 180, 194). -/
structure CosyVoiceFrontEnd where
  id : ℕ
  instruct : Bool
  deriving DecidableEq, Repr

/-- Input handed to `self.model.inference(**model_input)`: one constructor
per `frontend_*` builder (source lines 158–160, 170–171, 186, 200–201). -/
inductive ModelInput where
  | sft (tts_text : String) (spk_embedding : List ℚ)
  | zero_shot (tts_text : String) (prompt_text : String) (prompt_speech_16k : Audio)
  | cross_lingual (tts_text : String) (prompt_speech_16k : Audio)
  | instruct (tts_text : String) (spk_embedding : List ℚ) (instruct_text : String)
  deriving DecidableEq, Repr

/-- The external neural engine `self.model.inference`: maps a model input to
a synthesized speech buffer, or fails (any exception it raises). -/
def Engine : Type := ModelInput → Except TTSError Audio

/-- `inference_sft` (source lines 155–163): one engine call per text, outputs
collected in order (`torch.concat` along the time axis is modelled as the
list of per-text speeches). -/
def inference_sft (engine : Engine) (tts_texts : List String)
    (spk_embedding : List ℚ) : Except TTSError (List Audio) :=
  tts_texts.mapM (fun text => engine (ModelInput.sft text spk_embedding))

/-- `inference_zero_shot` (source lines 165–175). -/
def inference_zero_shot (engine : Engine) (tts_texts : List String)
    (prompt_text : String) (prompt_speech_16k : Audio) :
    Except TTSError (List Audio) :=
  tts_texts.mapM (fun text => engine (ModelInput.zero_shot text prompt_text prompt_speech_16k))

/-- `inference_cross_lingual` (source lines 177–189): guarded by
`self.frontend.instruct is True`. -/
def inference_cross_lingual (frontend : CosyVoiceFrontEnd) (engine : Engine)
    (tts_texts : List String) (prompt_speech_16k : Audio) :
    Except TTSError (List Audio) :=
  if frontend.instruct = true then
    Except.error TTSError.crossLingualUnsupported
  else
    tts_texts.mapM (fun text => engine (ModelInput.cross_lingual text prompt_speech_16k))

/-- `inference_instruct` (source lines 191–205): guarded by
`self.frontend.instruct is False`. -/
def inference_instruct (frontend : CosyVoiceFrontEnd) (engine : Engine)
    (tts_texts : List String) (spk_embedding : List ℚ) (instruct_text : String) :
    Except TTSError (List Audio) :=
  if frontend.instruct = false then
    Except.error TTSError.instructUnsupported
  else
    tts_texts.mapM (fun text => engine (ModelInput.instruct text spk_embedding instruct_text))

/-! ## Speaker conditioning resolution -/

/-- `spk_to_embedding` (source lines 207–217).  `self.model_id` is
`"cosy-voice"` (source line 51); Python's `a or b` over optional token
records is `Option.orElse` (a present token record is always truthy).
`token_cfg.embedding[0]` is the head of a non-empty list; the shape-only
`.unsqueeze(0)` is omitted. -/
def spk_to_embedding (spk : TTSSpeaker) : Option (List ℚ) :=
  let token_cfg :=
    ((spk.get_token "cosy-voice").orElse fun _ =>
      spk.get_token "cosyvoice_300m_instruct").orElse fun _ =>
        spk.get_token "cosyvoice_instruct"
  match token_cfg with
  | none => none
  | some t => if t.embedding.length > 0 then t.embedding.head? else none

/-- `spk_to_ref_wav` (source lines 219–229): first reference clip whose
emotion tag equals `emotion` exactly; its bytes are decoded at the clip's
native rate and resampled to `target_sr`; returns `(None, None)` when no
clip matches. -/
def spk_to_ref_wav (spk : TTSSpeaker) (emotion : String) :
    Option Audio × Option String :=
  match spk.get_ref (fun x => x.emotion == emotion) with
  | none => (none, none)
  | some ref_data =>
    let wav := Audio.decodeBytes ref_data.wav ref_data.wav_sr
    let wav := Audio.resample wav target_sr
    (some wav, some ref_data.text)

/-! ## Inference strategy selection -/

/-- The late-bound `infer_func` (source lines 276–293): one of the four
inference methods with its strategy-specific arguments fixed by
`functools.partial`. -/
inductive InferFunc where
  | sft (spk_embedding : List ℚ)
  | zero_shot (prompt_text : String) (prompt_speech_16k : Audio)
  | cross_lingual (prompt_speech_16k : Audio)
  | instruct (spk_embedding : List ℚ) (instruct_text : String)
  deriving DecidableEq, Repr

/-- Is the bound callable the cross-lingual one? -/
def InferFunc.isCrossLingual : InferFunc → Bool
  | .cross_lingual _ => true
  | _ => false

/-- Is the bound callable the SFT one? -/
def InferFunc.isSft : InferFunc → Bool
  | .sft _ => true
  | _ => false

/-- The model input produced when the bound callable is applied to a single
text (each method builds it via the corresponding `frontend_*` call). -/
def InferFunc.model_input : InferFunc → String → ModelInput
  | .sft emb, text => ModelInput.sft text emb
  | .zero_shot pt pw, text => ModelInput.zero_shot text pt pw
  | .cross_lingual pw, text => ModelInput.cross_lingual text pw
  | .instruct emb it, text => ModelInput.instruct text emb it

/-- Strategy selection part of `generate_batch_stream` (source lines
248–293): reads `segments[0]`, requires a speaker, builds the instruct
text (lines 264–269), resolves conditioning (lines 271–274) and binds
`infer_func` (lines 276–293). -/
def select_infer_func (seg0 : TTSSegment) : Except TTSError InferFunc :=
  match seg0.spk with
  | none => Except.error TTSError.spkIsNone
  | some spk =>
    let emotion := seg0.emotion
    let prompt2 := seg0.prompt2
    -- `instruct_text = emotion or prompt2 or ""` (source line 264)
    let instruct_text := if emotion ≠ "" then emotion
      else if prompt2 ≠ "" then prompt2 else ""
    -- gender tag (source lines 266–269)
    let instruct_text :=
      if spk.gender == "female" || str_contains spk.gender "女" then
        "female voice. " ++ instruct_text
      else
        "male voice. " ++ instruct_text
    let spk_embedding := spk_to_embedding spk
    let rw := spk_to_ref_wav spk emotion
    match spk_embedding with
    | some emb => Except.ok (InferFunc.instruct emb instruct_text)
    | none =>
      -- `elif ref_wav is not None and ref_text:` (source line 285)
      match rw with
      | (some ref_wav, some ref_text) =>
        if ref_text ≠ "" then
          Except.ok (InferFunc.zero_shot ref_text (Audio.unsqueeze ref_wav))
        else
          Except.error TTSError.spkEmbeddingIsNone
      | _ => Except.error TTSError.spkEmbeddingIsNone

/-! ## The per-segment synthesis loop and the batch executor -/

/-- One result entry: `(sr, wav)` with `sr = 22050` (source lines 296–307);
the wav is the engine output for the segment (the singleton `tts_texts`
makes the concatenation a one-element list). -/
abbrev NPAudio : Type := ℕ × List Audio

/-- Applying the bound `infer_func` to `tts_texts` (source line 305
dispatches to one of the four inference methods with the fixed strategy
arguments). -/
def apply_infer_func (frontend : CosyVoiceFrontEnd) (engine : Engine)
    (f : InferFunc) (tts_texts : List String) : Except TTSError (List Audio) :=
  match f with
  | .sft emb => inference_sft engine tts_texts emb
  | .zero_shot pt pw => inference_zero_shot engine tts_texts pt pw
  | .cross_lingual pw => inference_cross_lingual frontend engine tts_texts pw
  | .instruct emb it => inference_instruct frontend engine tts_texts emb it

/-- The `for seg in segments` loop (source lines 299–307).  The shared
mutable cancellation flag `context.stop` is modelled as a function of the
poll count: the flag is polled once per iteration, and at the start of
iteration `i` exactly `i` segments have completed (each earlier iteration
appended exactly one result).  The `SeedContext(infer_seed)` wrapper only
scopes random state and is not modelled.  An engine error propagates
uncaught, aborting the loop with no results. -/
def synthesis_loop (frontend : CosyVoiceFrontEnd) (engine : Engine)
    (stop : ℕ → Bool) (f : InferFunc) :
    List TTSSegment → ℕ → Except TTSError (List NPAudio)
  | [], _ => Except.ok []
  | seg :: rest, i =>
    if stop i then Except.ok []
    else
      match apply_infer_func frontend engine f [seg.text] with
      | Except.error e => Except.error e
      | Except.ok wavs =>
        match synthesis_loop frontend engine stop f rest (i + 1) with
        | Except.error e => Except.error e
        | Except.ok tail => Except.ok ((22050, wavs) :: tail)

/-- Observable outcome of one `generate_batch_stream` run: the yielded (or
raised) result, whether `self.load()` was invoked, which `infer_func` was
bound, and what `set_cache` wrote. -/
structure GenResult where
  output : Except TTSError (List NPAudio)
  loadCalled : Bool
  chosen : Option InferFunc
  cacheWritten : Option (List NPAudio)

/-- `generate_batch_stream` (source lines 236–310).  `cache` is the value
the external cache returns for this batch+context key (`get_cache`, line
239); `frontend`/`engine` are the loaded singleton's front-end and neural
engine; `stop` is the polled cancellation flag.  On a cache hit the cached
value is yielded unchanged and nothing else runs; otherwise `load()` is
called, `segments[0]` selects the strategy, the loop runs, and the
(possibly partial) result list is written back to the cache — unless an
error propagates, in which case no write happens. -/
def generate_batch_stream (cache : Option (List NPAudio))
    (frontend : CosyVoiceFrontEnd) (engine : Engine) (stop : ℕ → Bool)
    (segments : List TTSSegment) : GenResult :=
  match cache with
  | some cached => ⟨Except.ok cached, false, none, none⟩
  | none =>
    -- `self.load()` (source line 246) happens before `segments[0]` is read
    match segments with
    | [] => ⟨Except.error TTSError.indexError, true, none, none⟩
    | seg0 :: _ =>
      match select_infer_func seg0 with
      | Except.error e => ⟨Except.error e, true, none, none⟩
      | Except.ok f =>
        match synthesis_loop frontend engine stop f segments 0 with
        | Except.error e => ⟨Except.error e, true, some f, none⟩
        | Except.ok results => ⟨Except.ok results, true, some f, some results⟩

/-! ## Model lifecycle (load) -/

/-- The process-wide singleton slot (class attributes `CosyVoiceTTSModel.model`
/ `.frontend`, source lines 47–48) together with counters for the
initialization work `load()` performs.  Handles are identified by a fresh
number so handle identity is expressible.  The `load_lock` serializes
load/unload, so `load` is modelled as a plain state transition. -/
structure LoadState where
  /-- `CosyVoiceTTSModel.model` handle, `none` when unloaded. -/
  model : Option ℕ
  /-- `CosyVoiceTTSModel.frontend`, `none` when unloaded. -/
  frontend : Option CosyVoiceFrontEnd
  /-- Times the YAML configuration was read (source lines 91–92). -/
  configReads : ℕ
  /-- Weight files loaded (`llm.pt`, `flow.pt`, `hift.pt`, source lines 108–112). -/
  weightLoads : ℕ
  /-- Submodules transferred to device/dtype (source lines 113–115). -/
  deviceTransfers : ℕ
  /-- Fresh-handle counter (not part of the source; gives handle identity). -/
  nextHandle : ℕ
  deriving DecidableEq, Repr

/-- `load` (source lines 79–125): under `load_lock`, if the singleton model
is already present, return the existing `(model, frontend)` pair at once;
otherwise read the configuration, build the front-end (with
`instruct=True`, source line 100), build and load the model (three weight
files), transfer the three submodules, publish both to the singleton slot
and return them. -/
def load (st : LoadState) : LoadState × (Option ℕ × Option CosyVoiceFrontEnd) :=
  match st.model with
  | some m => (st, (some m, st.frontend))
  | none =>
    let frontend : CosyVoiceFrontEnd := ⟨st.nextHandle, true⟩
    let model := st.nextHandle + 1
    ({ model := some model
       frontend := some frontend
       configReads := st.configReads + 1
       weightLoads := st.weightLoads + 3
       deviceTransfers := st.deviceTransfers + 3
       nextHandle := st.nextHandle + 2 },
     (some model, some frontend))

/-! ## Concrete fixtures used by witnesses and counterexamples -/

/-- A token record with one embedding vector. -/
def tokFull : ConditioningToken := ⟨[[1]]⟩

/-- A token record whose embedding sequence is empty. -/
def tokEmpty : ConditioningToken := ⟨[]⟩

/-- A reference clip tagged "calm" with a non-empty transcript. -/
def clipCalm : ReferenceClip := ⟨[1, 2, 3], 44100, "hello there", "calm"⟩

/-- A reference clip tagged "angry" whose transcript is empty. -/
def clipNoText : ReferenceClip := ⟨[4], 16000, "", "angry"⟩

/-- Speaker with both a non-empty embedding token and a valid "calm" clip. -/
def spkBoth : TTSSpeaker := ⟨"female", [("cosy-voice", tokFull)], [clipCalm]⟩

/-- Speaker with no tokens and only the "calm" clip. -/
def spkRefOnly : TTSSpeaker := ⟨"male", [], [clipCalm]⟩

/-- Speaker with no tokens and only the empty-transcript "angry" clip. -/
def spkNoText : TTSSpeaker := ⟨"male", [], [clipNoText]⟩

/-- Speaker whose gender string contains "female" without being exactly it. -/
def spkFemWord : TTSSpeaker := ⟨"female speaker", [("cosy-voice", tokFull)], []⟩

/-- Speaker whose first-found token is empty while a later alias id holds a
token with a non-empty embedding. -/
def spkLater : TTSSpeaker :=
  ⟨"male", [("cosy-voice", tokEmpty), ("cosyvoice_instruct", tokFull)], []⟩

/-- Batch segment: both conditioning sources available, emotion "calm". -/
def segBoth : TTSSegment := ⟨"hi", some spkBoth, "calm", "", 42⟩

/-- Batch segment: reference-only speaker, matching emotion "calm". -/
def segRef : TTSSegment := ⟨"hi", some spkRefOnly, "calm", "", 42⟩

/-- Batch segment: reference-only speaker, requested emotion "angry". -/
def segAngry : TTSSegment := ⟨"hi", some spkRefOnly, "angry", "", 42⟩

/-- Batch segment: speaker with only an empty-transcript clip for "angry". -/
def segNoText : TTSSegment := ⟨"hi", some spkNoText, "angry", "", 42⟩

/-- Batch segment: embedding speaker with gender "female speaker". -/
def segFemWord : TTSSegment := ⟨"hi", some spkFemWord, "happy", "", 1⟩

/-- An engine that always succeeds with a fixed buffer. -/
def exEngine : Engine := fun _ => Except.ok (Audio.decodeBytes [] 0)

/-- A deterministic output table for the always-succeeding engine. -/
def exOut : ModelInput → Audio := fun _ => Audio.decodeBytes [] 0

/-- The `infer_func` the selector binds for `spkBoth` batches. -/
def exInstructFunc : InferFunc := InferFunc.instruct [1] "female voice. calm"

/-- The zero-shot prompt waveform actually passed for `clipCalm`:
decoded at its native rate, resampled to 16 kHz, unsqueezed. -/
def refPromptEx : Audio :=
  Audio.unsqueeze (Audio.resample (Audio.decodeBytes [1, 2, 3] 44100) 16000)

/-- Modelled from the spec's words, for comparison with the source's gender
test: "a gender string containing the female marker, in either script"
(Latin "female" or CJK "女"). -/
def spec_female_marker (g : String) : Bool :=
  str_contains g "female" || str_contains g "女"

/-- A batch segment over `spkBoth` with the given text. -/
def bseg (t : String) : TTSSegment := ⟨t, some spkBoth, "calm", "", 42⟩

/-- A 5-segment batch sharing one speaker. -/
def batch5 : List TTSSegment :=
  [bseg "t1", bseg "t2", bseg "t3", bseg "t4", bseg "t5"]

/-- A 3-segment batch sharing one speaker. -/
def batch3 : List TTSSegment := [bseg "t1", bseg "t2", bseg "t3"]

/-- Cancellation flag that becomes true once 2 segments have completed. -/
def stop2 : ℕ → Bool := fun i => decide (2 ≤ i)

/-- An engine that fails on the segment text "t2" and succeeds elsewhere. -/
def exEngineFail : Engine := fun m =>
  match m with
  | ModelInput.instruct "t2" _ _ => Except.error (TTSError.engineFailure 7)
  | _ => Except.ok (Audio.decodeBytes [] 0)

/-! ## Helper lemmas -/

/-- Whenever the automatic selector succeeds, the bound callable is either
the instruct one or the zero-shot one. -/
lemma select_ok_cases (s : TTSSegment) (f : InferFunc)
    (h : select_infer_func s = Except.ok f) :
    (∃ emb it, f = InferFunc.instruct emb it) ∨
    (∃ pt pw, f = InferFunc.zero_shot pt pw) := by
  unfold select_infer_func at h
  cases hs : s.spk with
  | none => rw [hs] at h; exact absurd h (by simp)
  | some spk =>
    rw [hs] at h
    dsimp only at h
    cases he : spk_to_embedding spk with
    | some emb =>
      rw [he] at h
      exact Or.inl ⟨emb, _, by injection h with h; exact h.symm⟩
    | none =>
      rw [he] at h
      cases hr : spk_to_ref_wav spk s.emotion with
      | mk w t =>
        rw [hr] at h
        cases w with
        | none => cases t <;> exact absurd h (by simp)
        | some wav =>
          cases t with
          | none => exact absurd h (by simp)
          | some txt =>
            by_cases ht : txt ≠ "" <;> simp [ht] at h
            exact Or.inr ⟨txt, _, h.symm⟩

/-- With an embedding resolved, the selector binds the instruct callable
with the gender-tagged instruct text. -/
lemma select_of_embedding (seg0 : TTSSegment) (spk : TTSSpeaker) (emb : List ℚ)
    (hspk : seg0.spk = some spk) (hemb : spk_to_embedding spk = some emb) :
    select_infer_func seg0 = Except.ok (InferFunc.instruct emb
      ((if spk.gender == "female" || str_contains spk.gender "女" then
          "female voice. " else "male voice. ") ++
       (if seg0.emotion ≠ "" then seg0.emotion
        else if seg0.prompt2 ≠ "" then seg0.prompt2 else ""))) := by
  unfold select_infer_func
  rw [hspk]
  dsimp only
  rw [hemb]
  by_cases hg : (spk.gender == "female" || str_contains spk.gender "女") = true <;>
    simp [hg]

/-- With no embedding and no usable reference (no clip for the requested
emotion, or an empty transcript), the selector raises the conditioning
error. -/
lemma select_err_of_no_conditioning (seg0 : TTSSegment) (spk : TTSSpeaker)
    (hspk : seg0.spk = some spk) (hemb : spk_to_embedding spk = none)
    (href : ∀ clip, spk.get_ref (fun x => x.emotion == seg0.emotion) = some clip →
      clip.text = "") :
    select_infer_func seg0 = Except.error TTSError.spkEmbeddingIsNone := by
  unfold select_infer_func
  rw [hspk]
  dsimp only
  rw [hemb]
  unfold spk_to_ref_wav
  cases hr : spk.get_ref (fun x => x.emotion == seg0.emotion) with
  | none => rfl
  | some clip =>
    have : clip.text = "" := href clip hr
    simp [this]

/-- `mapM` over a one-element text list is a single engine call. -/
lemma mapM_singleton (g : String → Except TTSError Audio) (t : String) :
    List.mapM g [t] = (g t).map (fun w => [w]) := by
  cases h : g t <;>
    simp [List.mapM, List.mapM.loop, h, Except.map, Except.pure, Except.bind,
      Bind.bind, Pure.pure]

/-- Applying a non-cross-lingual bound callable to a single text on an
instruct-capable front-end makes exactly one engine call. -/
lemma apply_one (frontend : CosyVoiceFrontEnd) (engine : Engine)
    (f : InferFunc) (t : String) (hfr : frontend.instruct = true)
    (hcl : f.isCrossLingual = false) :
    apply_infer_func frontend engine f [t] =
      (engine (f.model_input t)).map (fun w => [w]) := by
  cases f with
  | sft emb =>
    simp only [apply_infer_func, inference_sft, InferFunc.model_input]
    exact mapM_singleton _ t
  | zero_shot pt pw =>
    simp only [apply_infer_func, inference_zero_shot, InferFunc.model_input]
    exact mapM_singleton _ t
  | cross_lingual pw => exact absurd hcl (by simp [InferFunc.isCrossLingual])
  | instruct emb it =>
    simp only [apply_infer_func, inference_instruct, InferFunc.model_input, hfr]
    simp only [Bool.true_eq_false, if_false]
    exact mapM_singleton _ t

/-- With every engine call succeeding and the cancellation flag first
observed true at poll `k`, the loop returns one result per segment before
the cut, in input order. -/
lemma synthesis_loop_takes (frontend : CosyVoiceFrontEnd) (engine : Engine)
    (out : ModelInput → Audio) (stop : ℕ → Bool) (f : InferFunc) (k : ℕ)
    (hfr : frontend.instruct = true) (hcl : f.isCrossLingual = false)
    (heng : ∀ m, engine m = Except.ok (out m))
    (hstop : ∀ i, stop i = decide (k ≤ i)) :
    ∀ (segs : List TTSSegment) (i : ℕ),
      synthesis_loop frontend engine stop f segs i =
        Except.ok ((segs.take (k - i)).map
          fun s => ((22050, [out (f.model_input s.text)]) : NPAudio)) := by
  intro segs
  induction segs with
  | nil => intro i; simp [synthesis_loop]
  | cons seg rest ih =>
    intro i
    by_cases hki : k ≤ i
    · have h0 : k - i = 0 := Nat.sub_eq_zero_of_le hki
      simp [synthesis_loop, hstop i, hki, h0]
    · have hlt : i < k := Nat.lt_of_not_le hki
      have hsub : k - i = (k - (i + 1)) + 1 := by omega
      rw [synthesis_loop]
      rw [hstop i]
      simp only [decide_eq_true_eq, hki, if_false]
      rw [apply_one frontend engine f seg.text hfr hcl, heng]
      rw [ih (i + 1)]
      simp [hsub, Except.map]

/-- With the cancellation flag never set, engine success on every segment
before `segk` and an engine error on `segk`, the loop propagates the error
(discarding the earlier results). -/
lemma synthesis_loop_err (frontend : CosyVoiceFrontEnd) (engine : Engine)
    (stop : ℕ → Bool) (f : InferFunc) (e : TTSError)
    (hfr : frontend.instruct = true) (hcl : f.isCrossLingual = false)
    (hstop : ∀ i, stop i = false) :
    ∀ (pre : List TTSSegment) (segk : TTSSegment) (post : List TTSSegment) (i : ℕ),
      (∀ s ∈ pre, ∃ w, engine (f.model_input s.text) = Except.ok w) →
      engine (f.model_input segk.text) = Except.error e →
      synthesis_loop frontend engine stop f (pre ++ segk :: post) i =
        Except.error e := by
  intro pre
  induction pre with
  | nil =>
    intro segk post i _ hfail
    rw [List.nil_append, synthesis_loop, hstop i]
    simp only [Bool.false_eq_true, if_false]
    rw [apply_one frontend engine f segk.text hfr hcl, hfail]
    rfl
  | cons seg rest ih =>
    intro segk post i hok hfail
    obtain ⟨w, hw⟩ := hok seg (List.mem_cons_self seg rest)
    rw [List.cons_append, synthesis_loop, hstop i]
    simp only [Bool.false_eq_true, if_false]
    rw [apply_one frontend engine f seg.text hfr hcl, hw]
    rw [ih segk post (i + 1) (fun s hs => hok s (List.mem_cons_of_mem seg hs)) hfail]
    rfl

/-! ## Claim theorems -/

/-- C1: whenever the first segment's speaker resolves a non-empty
conditioning embedding, the selector binds the Instruct callable with that
embedding and an instruct text (even when a valid reference clip also
exists — no hypothesis here excludes one); the automatic selector never
binds CrossLingual or SFT; and ZeroShot is bound only when the speaker's
embedding resolution yields nothing. -/
theorem cosy_auto_selector_instruct_precedence (seg0 : TTSSegment)
    (spk : TTSSpeaker) (emb : List ℚ) (hspk : seg0.spk = some spk)
    (hemb : spk_to_embedding spk = some emb) :
    (∃ itext, select_infer_func seg0 = Except.ok (InferFunc.instruct emb itext)) ∧
    (∀ s f, select_infer_func s = Except.ok f →
      f.isCrossLingual = false ∧ f.isSft = false) ∧
    (∀ s sp pt pw, s.spk = some sp →
      select_infer_func s = Except.ok (InferFunc.zero_shot pt pw) →
      spk_to_embedding sp = none) := by
  refine ⟨⟨_, select_of_embedding seg0 spk emb hspk hemb⟩, ?_, ?_⟩
  · intro s f h
    rcases select_ok_cases s f h with ⟨e', it, rfl⟩ | ⟨pt, pw, rfl⟩ <;>
      exact ⟨rfl, rfl⟩
  · intro s sp pt pw hsp h
    cases he : spk_to_embedding sp with
    | none => rfl
    | some e' =>
      rw [select_of_embedding s sp e' hsp he] at h
      simp at h

/-- Witness for C1: `spkBoth` holds both a non-empty embedding token and a
valid "calm" reference clip, and Instruct is selected. -/
theorem cosy_auto_selector_instruct_precedence_witness :
    (∃ itext, select_infer_func segBoth = Except.ok (InferFunc.instruct [1] itext)) ∧
    (∀ s f, select_infer_func s = Except.ok f →
      f.isCrossLingual = false ∧ f.isSft = false) ∧
    (∀ s sp pt pw, s.spk = some sp →
      select_infer_func s = Except.ok (InferFunc.zero_shot pt pw) →
      spk_to_embedding sp = none) :=
  cosy_auto_selector_instruct_precedence segBoth spkBoth [1] rfl rfl

/-- C4: a batch whose cache lookup returns a stored value yields that value
unchanged with `load()` not invoked, no strategy bound, no inference run
(the outcome does not depend on the engine, the flag, or the segments —
even a batch whose first segment has no speaker raises nothing) and no
cache write. -/
theorem cosy_cache_hit_short_circuit (v : List NPAudio)
    (frontend : CosyVoiceFrontEnd) (engine : Engine) (stop : ℕ → Bool)
    (segments : List TTSSegment) :
    generate_batch_stream (some v) frontend engine stop segments =
      ⟨Except.ok v, false, none, none⟩ := rfl

/-- C5: `load()` is idempotent — with the singleton already loaded it
returns the existing handle pair and leaves the state (in particular the
configuration-read, weight-load and device-transfer counters) untouched;
and for any starting state, a second sequential `load()` returns the same
handles as the first with no further initialization work. -/
theorem cosy_load_idempotent :
    (∀ (st : LoadState) (m : ℕ), st.model = some m →
      load st = (st, (some m, st.frontend))) ∧
    (∀ st : LoadState, load (load st).1 = ((load st).1, (load st).2)) ∧
    (∀ st : LoadState,
      (load (load st).1).1.configReads = (load st).1.configReads ∧
      (load (load st).1).1.weightLoads = (load st).1.weightLoads ∧
      (load (load st).1).1.deviceTransfers = (load st).1.deviceTransfers) := by
  refine ⟨?_, ?_, ?_⟩
  · intro st m h
    simp [load, h]
  · intro st
    cases h : st.model <;> simp [load, h]
  · intro st
    cases h : st.model <;> simp [load, h]

/-- Witness for C5: a concrete already-loaded state is returned unchanged. -/
theorem cosy_load_idempotent_witness :
    load ⟨some 5, some ⟨4, true⟩, 1, 3, 3, 6⟩ =
      (⟨some 5, some ⟨4, true⟩, 1, 3, 3, 6⟩, (some 5, some ⟨4, true⟩)) :=
  cosy_load_idempotent.1 ⟨some 5, some ⟨4, true⟩, 1, 3, 3, 6⟩ 5 rfl

/-- C10: token lookup stops at the first alias id (own id "cosy-voice",
then "cosyvoice_300m_instruct", then "cosyvoice_instruct") holding any
token record; an empty embedding sequence on that first-found record makes
`spk_to_embedding` return `none` without consulting later aliases, and the
batch then falls back to reference-clip conditioning or fails with the
conditioning error. -/
theorem cosy_token_alias_first_match (spk : TTSSpeaker) (t : ConditioningToken)
    (hempty : t.embedding = []) :
    (spk.get_token "cosy-voice" = some t → spk_to_embedding spk = none) ∧
    (spk.get_token "cosy-voice" = none →
      spk.get_token "cosyvoice_300m_instruct" = some t →
      spk_to_embedding spk = none) ∧
    (spk.get_token "cosy-voice" = none →
      spk.get_token "cosyvoice_300m_instruct" = none →
      spk.get_token "cosyvoice_instruct" = some t →
      spk_to_embedding spk = none) ∧
    (∀ seg0 : TTSSegment, seg0.spk = some spk → spk_to_embedding spk = none →
      select_infer_func seg0 = Except.error TTSError.spkEmbeddingIsNone ∨
      ∃ pt pw, select_infer_func seg0 = Except.ok (InferFunc.zero_shot pt pw)) := by
  refine ⟨?_, ?_, ?_, ?_⟩
  · intro h1
    simp [spk_to_embedding, Option.orElse, h1, hempty]
  · intro h1 h2
    simp [spk_to_embedding, Option.orElse, h1, h2, hempty]
  · intro h1 h2 h3
    simp [spk_to_embedding, Option.orElse, h1, h2, h3, hempty]
  · intro seg0 hspk hnone
    unfold select_infer_func
    rw [hspk]
    dsimp only
    rw [hnone]
    rcases hr : spk_to_ref_wav spk seg0.emotion with ⟨w, t'⟩
    cases w with
    | none => cases t' <;> exact Or.inl rfl
    | some wav =>
      cases t' with
      | none => exact Or.inl rfl
      | some txt =>
        by_cases ht : txt ≠ ""
        · exact Or.inr ⟨txt, Audio.unsqueeze wav, by simp [ht]⟩
        · simp [ht]

/-- Witness for C10: `spkLater`'s first-found token (under "cosy-voice")
has an empty embedding while the later alias "cosyvoice_instruct" holds a
non-empty one, and resolution still returns `none`. -/
theorem cosy_token_alias_first_match_witness :
    spk_to_embedding spkLater = none ∧
    spkLater.get_token "cosyvoice_instruct" = some tokFull :=
  ⟨(cosy_token_alias_first_match spkLater tokEmpty rfl).1 rfl, rfl⟩

/-- C2: a batch whose first segment's speaker yields no embedding and no
reference clip with the exactly-matching emotion tag and a non-empty
transcript fails with the conditioning error (`"spk_embedding is None"`),
with no cache write and no strategy bound. -/
theorem cosy_conditioning_error_no_fallback (frontend : CosyVoiceFrontEnd)
    (engine : Engine) (stop : ℕ → Bool) (seg0 : TTSSegment)
    (rest : List TTSSegment) (spk : TTSSpeaker)
    (hspk : seg0.spk = some spk)
    (hemb : spk_to_embedding spk = none)
    (href : ∀ clip, spk.get_ref (fun x => x.emotion == seg0.emotion) = some clip →
      clip.text = "") :
    generate_batch_stream none frontend engine stop (seg0 :: rest) =
      ⟨Except.error TTSError.spkEmbeddingIsNone, true, none, none⟩ := by
  have hsel := select_err_of_no_conditioning seg0 spk hspk hemb href
  simp [generate_batch_stream, hsel]

/-- Witness for C2: a speaker with only a "calm" clip fails for requested
emotion "angry" (no cross-emotion fallback), and a speaker whose only
"angry" clip has an empty transcript also fails. -/
theorem cosy_conditioning_error_no_fallback_witness :
    generate_batch_stream none ⟨0, true⟩ exEngine (fun _ => false) [segAngry] =
      ⟨Except.error TTSError.spkEmbeddingIsNone, true, none, none⟩ ∧
    generate_batch_stream none ⟨0, true⟩ exEngine (fun _ => false) [segNoText] =
      ⟨Except.error TTSError.spkEmbeddingIsNone, true, none, none⟩ := by
  constructor
  · exact cosy_conditioning_error_no_fallback ⟨0, true⟩ exEngine (fun _ => false)
      segAngry [] spkRefOnly rfl rfl (fun _ h => nomatch h)
  · exact cosy_conditioning_error_no_fallback ⟨0, true⟩ exEngine (fun _ => false)
      segNoText [] spkNoText rfl rfl
      (fun clip h => by injection h with h2; exact h2 ▸ rfl)

/-- C6 counterexample: the claim says the female tag is used whenever the
gender string CONTAINS the female marker in either script; the source
tests `gender == "female"` (exact equality) or CJK containment, so the
gender "female speaker" — which contains the Latin marker — still gets the
male tag. -/
theorem cosy_gender_marker_counterexample :
    spec_female_marker "female speaker" = true ∧
    select_infer_func segFemWord =
      Except.ok (InferFunc.instruct [1] "male voice. happy") ∧
    ("male voice. happy" : String) ≠ "female voice. happy" :=
  ⟨by decide, rfl, by decide⟩

/-- C6 (amended): for batches synthesized via Instruct, the instruct text
is the emotion string, else the secondary prompt, else empty, prefixed
with "female voice. " exactly when the gender string equals "female" or
contains "女", and with "male voice. " otherwise. -/
theorem cosy_instruct_text_gender_tag (seg0 : TTSSegment) (spk : TTSSpeaker)
    (emb : List ℚ) (hspk : seg0.spk = some spk)
    (hemb : spk_to_embedding spk = some emb) :
    select_infer_func seg0 = Except.ok (InferFunc.instruct emb
      ((if spk.gender == "female" || str_contains spk.gender "女" then
          "female voice. " else "male voice. ") ++
       (if seg0.emotion ≠ "" then seg0.emotion
        else if seg0.prompt2 ≠ "" then seg0.prompt2 else ""))) :=
  select_of_embedding seg0 spk emb hspk hemb

/-- Witness for C6 (amended): gender exactly "female" and emotion "calm"
give the instruct text "female voice. calm". -/
theorem cosy_instruct_text_gender_tag_witness :
    select_infer_func segBoth =
      Except.ok (InferFunc.instruct [1] "female voice. calm") := by
  exact cosy_instruct_text_gender_tag segBoth spkBoth [1] rfl rfl

/-- C7: CrossLingual on an instruct-capable front-end and Instruct on a
non-instruct front-end fail with the unsupported-mode errors before any
engine call (the failing result does not depend on the engine); with the
compatible flag value neither guard fires and the calls go to the engine. -/
theorem cosy_mode_guards (frontend : CosyVoiceFrontEnd)
    (engine engine2 : Engine) (texts : List String) (pw : Audio)
    (emb : List ℚ) (it : String) :
    (frontend.instruct = true →
      inference_cross_lingual frontend engine texts pw =
        Except.error TTSError.crossLingualUnsupported ∧
      inference_cross_lingual frontend engine texts pw =
        inference_cross_lingual frontend engine2 texts pw) ∧
    (frontend.instruct = false →
      inference_instruct frontend engine texts emb it =
        Except.error TTSError.instructUnsupported ∧
      inference_instruct frontend engine texts emb it =
        inference_instruct frontend engine2 texts emb it) ∧
    (frontend.instruct = false →
      inference_cross_lingual frontend engine texts pw =
        texts.mapM (fun t => engine (ModelInput.cross_lingual t pw))) ∧
    (frontend.instruct = true →
      inference_instruct frontend engine texts emb it =
        texts.mapM (fun t => engine (ModelInput.instruct t emb it))) := by
  refine ⟨fun h => ?_, fun h => ?_, fun h => ?_, fun h => ?_⟩ <;>
    simp [inference_cross_lingual, inference_instruct, h]

/-- Witness for C7: concrete front-ends with each flag value. -/
theorem cosy_mode_guards_witness :
    inference_cross_lingual ⟨0, true⟩ exEngine ["hi"] (Audio.decodeBytes [] 0) =
      Except.error TTSError.crossLingualUnsupported ∧
    inference_instruct ⟨1, false⟩ exEngine ["hi"] [1] "x" =
      Except.error TTSError.instructUnsupported :=
  ⟨((cosy_mode_guards ⟨0, true⟩ exEngine exEngine ["hi"]
      (Audio.decodeBytes [] 0) [1] "x").1 rfl).1,
   ((cosy_mode_guards ⟨1, false⟩ exEngine exEngine ["hi"]
      (Audio.decodeBytes [] 0) [1] "x").2.1 rfl).1⟩

/-- C8 counterexample: for the reference-only speaker `spkRefOnly`, the
prompt waveform bound for ZeroShot is the decoded, 16 kHz-resampled clip
(unsqueezed) — `postprocess` (trim, conditional peak rescale, 0.2 s pad)
is applied in neither of its branches, whether taken on the resampled or
the raw decoded clip, with or without the unsqueeze. -/
theorem cosy_zero_shot_prompt_not_postprocessed :
    select_infer_func segRef =
      Except.ok (InferFunc.zero_shot "hello there" refPromptEx) ∧
    refPromptEx ≠ Audio.unsqueeze (postprocess
      (Audio.resample (Audio.decodeBytes [1, 2, 3] 44100) 16000) 60 220 440 true) ∧
    refPromptEx ≠ Audio.unsqueeze (postprocess
      (Audio.resample (Audio.decodeBytes [1, 2, 3] 44100) 16000) 60 220 440 false) ∧
    refPromptEx ≠ postprocess
      (Audio.resample (Audio.decodeBytes [1, 2, 3] 44100) 16000) 60 220 440 true ∧
    refPromptEx ≠ postprocess
      (Audio.resample (Audio.decodeBytes [1, 2, 3] 44100) 16000) 60 220 440 false ∧
    refPromptEx ≠ Audio.unsqueeze (postprocess
      (Audio.decodeBytes [1, 2, 3] 44100) 60 220 440 true) ∧
    refPromptEx ≠ Audio.unsqueeze (postprocess
      (Audio.decodeBytes [1, 2, 3] 44100) 60 220 440 false) :=
  ⟨rfl, by decide, by decide, by decide, by decide, by decide, by decide⟩

/-- C8 (amended): for every batch synthesized via ZeroShot, the prompt
waveform passed as `prompt_speech_16k` is the speaker's matching reference
clip decoded at its native rate, resampled to the 16 kHz target rate and
unsqueezed — `postprocess` is not part of this path. -/
theorem cosy_zero_shot_prompt_resampled_ref (seg0 : TTSSegment)
    (spk : TTSSpeaker) (clip : ReferenceClip)
    (hspk : seg0.spk = some spk) (hemb : spk_to_embedding spk = none)
    (href : spk.get_ref (fun x => x.emotion == seg0.emotion) = some clip)
    (htext : clip.text ≠ "") :
    select_infer_func seg0 = Except.ok (InferFunc.zero_shot clip.text
      (Audio.unsqueeze (Audio.resample
        (Audio.decodeBytes clip.wav clip.wav_sr) target_sr))) := by
  unfold select_infer_func
  rw [hspk]
  dsimp only
  rw [hemb]
  unfold spk_to_ref_wav
  rw [href]
  simp [htext]

/-- Witness for C8 (amended): the concrete reference-only batch binds the
resampled (not postprocessed) clip as the prompt. -/
theorem cosy_zero_shot_prompt_resampled_ref_witness :
    select_infer_func segRef =
      Except.ok (InferFunc.zero_shot "hello there" refPromptEx) := by
  exact cosy_zero_shot_prompt_resampled_ref segRef spkRefOnly clipCalm rfl rfl rfl
    (by decide)

/-- C3: when every engine call succeeds and the cancellation flag is first
observed true at the poll after exactly `k` completed segments (`k` less
than the batch size), the run returns exactly the first `k` results, one
per completed segment in input order, and writes exactly that partial list
to the cache. -/
theorem cosy_cancellation_partial_results (frontend : CosyVoiceFrontEnd)
    (engine : Engine) (out : ModelInput → Audio) (stop : ℕ → Bool)
    (seg0 : TTSSegment) (rest : List TTSSegment) (f : InferFunc) (k : ℕ)
    (hfr : frontend.instruct = true)
    (heng : ∀ m, engine m = Except.ok (out m))
    (hstop : ∀ i, stop i = decide (k ≤ i))
    (hsel : select_infer_func seg0 = Except.ok f)
    (hk : k < (seg0 :: rest).length) :
    generate_batch_stream none frontend engine stop (seg0 :: rest) =
      ⟨Except.ok (((seg0 :: rest).take k).map
          fun s => ((22050, [out (f.model_input s.text)]) : NPAudio)),
        true, some f,
        some (((seg0 :: rest).take k).map
          fun s => ((22050, [out (f.model_input s.text)]) : NPAudio))⟩ ∧
    (((seg0 :: rest).take k).map
        fun s => ((22050, [out (f.model_input s.text)]) : NPAudio)).length = k := by
  have hcl : f.isCrossLingual = false := by
    rcases select_ok_cases seg0 f hsel with ⟨a, b, rfl⟩ | ⟨a, b, rfl⟩ <;> rfl
  have hloop := synthesis_loop_takes frontend engine out stop f k hfr hcl heng
    hstop (seg0 :: rest) 0
  rw [Nat.sub_zero] at hloop
  refine ⟨by simp [generate_batch_stream, hsel, hloop], ?_⟩
  rw [List.length_map, List.length_take]
  exact Nat.min_eq_left (Nat.le_of_lt hk)

/-- Witness for C3: the 5-segment batch cancelled after the 2nd completed
segment returns exactly 2 results, in input order, and caches them. -/
theorem cosy_cancellation_partial_results_witness :
    generate_batch_stream none ⟨0, true⟩ exEngine stop2 batch5 =
      ⟨Except.ok [(22050, [Audio.decodeBytes [] 0]), (22050, [Audio.decodeBytes [] 0])],
        true, some exInstructFunc,
        some [(22050, [Audio.decodeBytes [] 0]), (22050, [Audio.decodeBytes [] 0])]⟩ ∧
    ([((22050 : ℕ), [Audio.decodeBytes [] 0]), (22050, [Audio.decodeBytes [] 0])]).length = 2 := by
  exact cosy_cancellation_partial_results ⟨0, true⟩ exEngine exOut stop2
    (bseg "t1") [bseg "t2", bseg "t3", bseg "t4", bseg "t5"] exInstructFunc 2
    rfl (fun _ => rfl) (fun _ => rfl) rfl (by decide)

/-- C9: when the cancellation flag never trips, the engine succeeds on each
of the first `pre.length ≥ 1` segments and raises an error on the next
segment, the error propagates out of the batch run, the already-computed
results are discarded (the outcome is the error, not a result list) and no
cache write occurs — unlike cancellation, where the partial list is both
returned and cached. -/
theorem cosy_midbatch_error_discards_results (frontend : CosyVoiceFrontEnd)
    (engine : Engine) (stop : ℕ → Bool) (f : InferFunc) (e : TTSError)
    (seg0 : TTSSegment) (rest pre post : List TTSSegment) (segk : TTSSegment)
    (hseg : seg0 :: rest = pre ++ segk :: post)
    (hfr : frontend.instruct = true)
    (hstop : ∀ i, stop i = false)
    (hsel : select_infer_func seg0 = Except.ok f)
    (hok : ∀ s ∈ pre, ∃ w, engine (f.model_input s.text) = Except.ok w)
    (hfail : engine (f.model_input segk.text) = Except.error e)
    (_hpre : 1 ≤ pre.length) :
    generate_batch_stream none frontend engine stop (seg0 :: rest) =
      ⟨Except.error e, true, some f, none⟩ := by
  have hcl : f.isCrossLingual = false := by
    rcases select_ok_cases seg0 f hsel with ⟨a, b, rfl⟩ | ⟨a, b, rfl⟩ <;> rfl
  have hloop := synthesis_loop_err frontend engine stop f e hfr hcl hstop
    pre segk post 0 hok hfail
  rw [← hseg] at hloop
  simp [generate_batch_stream, hsel, hloop]

/-- Witness for C9: a 3-segment batch whose engine fails on the 2nd
segment propagates the failure with no results and no cache write. -/
theorem cosy_midbatch_error_discards_results_witness :
    generate_batch_stream none ⟨0, true⟩ exEngineFail (fun _ => false) batch3 =
      ⟨Except.error (TTSError.engineFailure 7), true, some exInstructFunc, none⟩ := by
  exact cosy_midbatch_error_discards_results ⟨0, true⟩ exEngineFail (fun _ => false)
    exInstructFunc (TTSError.engineFailure 7) (bseg "t1") [bseg "t2", bseg "t3"]
    [bseg "t1"] [bseg "t3"] (bseg "t2") rfl rfl (fun _ => rfl) rfl
    (fun s hs => by
      rcases List.mem_singleton.mp hs with rfl
      exact ⟨Audio.decodeBytes [] 0, rfl⟩)
    rfl (by decide)

end CosyVoice
